import Mathlib

/-!
Verification of the session manager (AuthContext: login / restoreSession /
logout / updateUser) and the supervisor scope filter (SupervisorDashboard
listeners) of the school-management repository.

The embedding mirrors the dynamically-typed JavaScript source:
* `Json` models the JavaScript values that flow through `JSON.stringify` /
  `JSON.parse` and the process-wide `user` state (the code installs whatever
  `JSON.parse` returns with no validation, so the state holds a raw value).
* `Json.stringify` / `Json.parse` model the platform `JSON.stringify` and
  `JSON.parse` (parse failure = the `SyntaxError` `JSON.parse` throws).
* Credential records follow the field sets that the source reads.
-/

namespace SchoolApp

/-- A JavaScript/JSON value.  Numeric literals are kept as their lexeme: the
source never does arithmetic on a parsed number, so only the token matters. -/
inductive Json where
  | null : Json
  | bool : Bool → Json
  | num : List Char → Json
  | str : String → Json
  | arr : List Json → Json
  | obj : List (String × Json) → Json
deriving Repr, Inhabited

mutual

/-- Structural equality of JSON values (models `Array.prototype.includes`
element comparison for the primitive values the dashboard compares). -/
def Json.beq : Json → Json → Bool
  | .null, .null => true
  | .bool a, .bool b => a == b
  | .num a, .num b => a == b
  | .str a, .str b => a == b
  | .arr a, .arr b => Json.beqList a b
  | .obj a, .obj b => Json.beqFields a b
  | _, _ => false

def Json.beqList : List Json → List Json → Bool
  | [], [] => true
  | a :: as, b :: bs => Json.beq a b && Json.beqList as bs
  | _, _ => false

def Json.beqFields : List (String × Json) → List (String × Json) → Bool
  | [], [] => true
  | (k, v) :: as, (l, w) :: bs => k == l && Json.beq v w && Json.beqFields as bs
  | _, _ => false

end

/-- Last-wins lookup in an object's field list (JavaScript property access:
`JSON.parse` keeps the last of duplicate keys; ordinary objects have unique
keys, for which last-wins agrees with lookup). -/
def lookupLast (fs : List (String × Json)) (k : String) : Option Json :=
  match fs with
  | [] => none
  | kv :: rest =>
    match lookupLast rest k with
    | some v => some v
    | none => if kv.1 == k then some kv.2 else none

/-- JavaScript property access `v[k]`: `none` models `undefined` (absent
property, or any property access on a primitive). -/
def Json.get : Json → String → Option Json
  | .obj fs, k => lookupLast fs k
  | _, _ => none

/-- Lower-case hex digit, as `JSON.stringify` emits in `\u00XX` escapes. -/
def hexDigitChar (n : Nat) : Char :=
  if n < 10 then Char.ofNat (48 + n) else Char.ofNat (87 + n)

/-- Escaping of one character inside a JSON string literal, exactly as
`JSON.stringify` does: `"`, `\`, the five short control escapes, `\u00XX`
for the remaining control characters, and every other character verbatim. -/
def escapeChar (c : Char) : List Char :=
  if c = '"' then ['\\', '"']
  else if c = '\\' then ['\\', '\\']
  else if c = '\x08' then ['\\', 'b']
  else if c = '\x09' then ['\\', 't']
  else if c = '\x0a' then ['\\', 'n']
  else if c = '\x0c' then ['\\', 'f']
  else if c = '\x0d' then ['\\', 'r']
  else if c.toNat < 32 then
    ['\\', 'u', '0', '0', hexDigitChar (c.toNat / 16), hexDigitChar (c.toNat % 16)]
  else [c]

def escList : List Char → List Char
  | [] => []
  | c :: cs => escapeChar c ++ escList cs

mutual

/-- Models `JSON.stringify` (no spacing argument), character by character. -/
def stringifyV : Json → List Char
  | .null => "null".data
  | .bool true => "true".data
  | .bool false => "false".data
  | .num l => l
  | .str s => '"' :: (escList s.data ++ ['"'])
  | .arr xs => '[' :: (stringifyItems xs ++ [']'])
  | .obj fs => '{' :: (stringifyFields fs ++ ['}'])

def stringifyItems : List Json → List Char
  | [] => []
  | [x] => stringifyV x
  | x :: y :: xs => stringifyV x ++ ',' :: stringifyItems (y :: xs)

def stringifyFields : List (String × Json) → List Char
  | [] => []
  | [(k, v)] => '"' :: (escList k.data ++ '"' :: ':' :: stringifyV v)
  | (k, v) :: l :: fs =>
    ('"' :: (escList k.data ++ '"' :: ':' :: stringifyV v)) ++ ',' :: stringifyFields (l :: fs)

end

def Json.stringify (j : Json) : String := String.mk (stringifyV j)

/-- JSON whitespace. -/
def isWsChar (c : Char) : Bool := c = ' ' || c = '\t' || c = '\n' || c = '\r'

def skipWs : List Char → List Char
  | [] => []
  | c :: cs => if isWsChar c then skipWs cs else c :: cs

def hexVal (c : Char) : Option Nat :=
  if '0' ≤ c ∧ c ≤ '9' then some (c.toNat - 48)
  else if 'a' ≤ c ∧ c ≤ 'f' then some (c.toNat - 87)
  else if 'A' ≤ c ∧ c ≤ 'F' then some (c.toNat - 55)
  else none

/-- Decode the escape sequence that starts after a backslash: `e` is the
escape letter, `rest` the remaining input.  A `\uXXXX` escape denoting a
surrogate half is rejected (such JavaScript strings have no scalar-value
counterpart in this model). -/
def unescape (e : Char) (rest : List Char) : Option (Char × List Char) :=
  if e = '"' then some ('"', rest)
  else if e = '\\' then some ('\\', rest)
  else if e = '/' then some ('/', rest)
  else if e = 'b' then some ('\x08', rest)
  else if e = 'f' then some ('\x0c', rest)
  else if e = 'n' then some ('\x0a', rest)
  else if e = 'r' then some ('\x0d', rest)
  else if e = 't' then some ('\x09', rest)
  else if e = 'u' then
    match rest with
    | h1 :: h2 :: h3 :: h4 :: rest2 =>
      match hexVal h1, hexVal h2, hexVal h3, hexVal h4 with
      | some a, some b, some c, some d =>
        let v := ((a * 16 + b) * 16 + c) * 16 + d
        if v < 55296 then some (Char.ofNat v, rest2)
        else if 57343 < v then some (Char.ofNat v, rest2)
        else none
      | _, _, _, _ => none
    | _ => none
  else none

/-- Parse the body of a JSON string literal (the opening quote already
consumed), returning the decoded characters and the input after the closing
quote.  Fuel bounds the recursion; each step consumes at least one input
character, so any fuel above the input length is enough. -/
def parseStringBody : Nat → List Char → Option (List Char × List Char)
  | 0, _ => none
  | fuel + 1, cs =>
    match cs with
    | [] => none
    | c :: rest =>
      if c = '"' then some ([], rest)
      else if c = '\\' then
        match rest with
        | [] => none
        | e :: rest2 =>
          match unescape e rest2 with
          | some (d, rest3) =>
            match parseStringBody fuel rest3 with
            | some (sl, r) => some (d :: sl, r)
            | none => none
          | none => none
      else if c.toNat < 32 then none
      else
        match parseStringBody fuel rest with
        | some (sl, r) => some (c :: sl, r)
        | none => none

/-- Longest prefix of decimal digits. -/
def scanDigits : List Char → List Char × List Char
  | [] => ([], [])
  | c :: cs =>
    if c.isDigit then
      let (d, r) := scanDigits cs
      (c :: d, r)
    else ([], c :: cs)

/-- Scan a JSON number literal, returning its lexeme and the rest. -/
def scanNumber (cs : List Char) : Option (List Char × List Char) :=
  let (neg, cs1) := match cs with | '-' :: t => (['-'], t) | _ => (([] : List Char), cs)
  match scanDigits cs1 with
  | ([], _) => none
  | (ds, cs2) =>
    match ds with
    | '0' :: _ :: _ => none
    | _ =>
      let fracScan : Option (List Char × List Char) :=
        match cs2 with
        | '.' :: t =>
          match scanDigits t with
          | ([], _) => none
          | (fs, r) => some ('.' :: fs, r)
        | _ => some ([], cs2)
      match fracScan with
      | none => none
      | some (frac, cs3) =>
        let expScan : Option (List Char × List Char) :=
          match cs3 with
          | e :: t =>
            if e = 'e' || e = 'E' then
              let (sgn, t2) := match t with
                | c :: t3 => if c = '+' || c = '-' then ([c], t3) else (([] : List Char), t)
                | [] => (([] : List Char), t)
              match scanDigits t2 with
              | ([], _) => none
              | (es, r) => some (e :: (sgn ++ es), r)
            else some ([], cs3)
          | [] => some ([], [])
        match expScan with
        | none => none
        | some (ex, cs4) => some (neg ++ ds ++ frac ++ ex, cs4)

/-- Strip an exact expected literal from the input. -/
def expectLit : List Char → List Char → Option (List Char)
  | [], cs => some cs
  | l :: ls, c :: cs => if c = l then expectLit ls cs else none
  | _ :: _, [] => none

mutual

/-- Recursive-descent JSON value parser (models `JSON.parse`).  The fuel only
bounds bracket nesting; `Json.parse` supplies more fuel than any input can
use, so the function realizes the full JSON grammar. -/
def parseVal : Nat → List Char → Option (Json × List Char)
  | 0, _ => none
  | fuel + 1, cs =>
    match skipWs cs with
    | [] => none
    | c :: cs1 =>
      if c = '{' then
        match skipWs cs1 with
        | [] => none
        | d :: cs2 =>
          if d = '}' then some (.obj [], cs2)
          else
            match parseFields fuel (d :: cs2) with
            | some (fs, r) => some (.obj fs, r)
            | none => none
      else if c = '[' then
        match skipWs cs1 with
        | [] => none
        | d :: cs2 =>
          if d = ']' then some (.arr [], cs2)
          else
            match parseItems fuel (d :: cs2) with
            | some (xs, r) => some (.arr xs, r)
            | none => none
      else if c = '"' then
        match parseStringBody (cs1.length + 1) cs1 with
        | some (sl, r) => some (.str (String.mk sl), r)
        | none => none
      else if c = 't' then
        match expectLit ['r', 'u', 'e'] cs1 with
        | some r => some (.bool true, r)
        | none => none
      else if c = 'f' then
        match expectLit ['a', 'l', 's', 'e'] cs1 with
        | some r => some (.bool false, r)
        | none => none
      else if c = 'n' then
        match expectLit ['u', 'l', 'l'] cs1 with
        | some r => some (.null, r)
        | none => none
      else if c = '-' || c.isDigit then
        match scanNumber (c :: cs1) with
        | some (lex, r) => some (.num lex, r)
        | none => none
      else none

/-- One or more comma-separated `"key": value` fields followed by `}`. -/
def parseFields : Nat → List Char → Option (List (String × Json) × List Char)
  | 0, _ => none
  | fuel + 1, cs =>
    match skipWs cs with
    | [] => none
    | c :: cs1 =>
      if c = '"' then
        match parseStringBody (cs1.length + 1) cs1 with
        | some (k, cs2) =>
          match skipWs cs2 with
          | [] => none
          | d :: cs3 =>
            if d = ':' then
              match parseVal fuel cs3 with
              | some (v, cs4) =>
                match skipWs cs4 with
                | [] => none
                | e :: cs5 =>
                  if e = ',' then
                    match parseFields fuel cs5 with
                    | some (fs, r) => some ((String.mk k, v) :: fs, r)
                    | none => none
                  else if e = '}' then some ([(String.mk k, v)], cs5)
                  else none
              | none => none
            else none
        | none => none
      else none

/-- One or more comma-separated values followed by `]`. -/
def parseItems : Nat → List Char → Option (List Json × List Char)
  | 0, _ => none
  | fuel + 1, cs =>
    match parseVal fuel cs with
    | some (v, cs1) =>
      match skipWs cs1 with
      | [] => none
      | e :: cs2 =>
        if e = ',' then
          match parseItems fuel cs2 with
          | some (xs, r) => some (v :: xs, r)
          | none => none
        else if e = ']' then some ([v], cs2)
        else none
    | none => none

end

/-- Models `JSON.parse`: parse one value, then require only trailing whitespace;
`none` models the `SyntaxError` that `JSON.parse` throws. -/
def Json.parse (s : String) : Option Json :=
  match parseVal (2 * s.data.length + 2) s.data with
  | some (j, rest) => if skipWs rest = [] then some j else none
  | none => none

/-! ## Credential records and the remote store

`dbGet` is an asynchronous read of the remote store that can reject
(unreachable store); `Except.error` models a rejected read, `Option` the
present/absent record.  The teacher and student collections are keyed maps;
`Object.entries` enumeration order is their list order. -/

/-- The record at `users/admin` (fields the login path reads: it carries its
own declared `id`). -/
structure AdminRecord where
  id : String
  username : String
  password : String
  name : String
deriving Repr, DecidableEq

/-- A record of the `teachers` collection. -/
structure TeacherRecord where
  name : String
  username : String
  password : String
  subject : String
deriving Repr, DecidableEq

/-- A record of the `students` collection (also the student credential
collection used by login; `passwordChanged` may be absent). -/
structure StudentRecord where
  name : String
  username : String
  password : String
  classId : String
  className : String
  passwordChanged : Option Bool := none
deriving Repr, DecidableEq

/-- The three credential collections, each read with `dbGet`. -/
structure Store where
  admin : Except Unit (Option AdminRecord)
  teachers : Except Unit (Option (List (String × TeacherRecord)))
  students : Except Unit (Option (List (String × StudentRecord)))

/-! ## Sessions -/

/-- The `userData` object the admin branch of `login` builds
(`{id, username, name, role: 'admin'}`, in that key order). -/
def mkAdminSession (a : AdminRecord) : Json :=
  .obj [("id", .str a.id), ("username", .str a.username),
        ("name", .str a.name), ("role", .str "admin")]

/-- The `userData` object the teacher branch builds: `id` is the record's
key in the collection. -/
def mkTeacherSession (key : String) (t : TeacherRecord) : Json :=
  .obj [("id", .str key), ("username", .str t.username),
        ("name", .str t.name), ("role", .str "teacher")]

/-- The `userData` object the student branch builds: `id` is the record's
key, class fields are copied, `passwordChanged` is `student.passwordChanged
|| false`. -/
def mkStudentSession (key : String) (s : StudentRecord) : Json :=
  .obj [("id", .str key), ("username", .str s.username),
        ("name", .str s.name), ("role", .str "student"),
        ("classId", .str s.classId), ("className", .str s.className),
        ("passwordChanged", .bool (s.passwordChanged.getD false))]

/-- Process-wide auth state: the React `user` state and the
`localStorage` slot `crescentUser`. -/
structure AuthState where
  user : Option Json
  slot : Option String
deriving Repr

/-- The `{success, error?}` value `login` resolves with. -/
structure LoginResult where
  success : Bool
  error : Option String
deriving Repr, DecidableEq

/-- Student probe: `dbGet('students')` (a rejected read propagates to the
surrounding `catch`), then scan `Object.entries` for the first record whose
`username` and `password` strictly equal the inputs. -/
def loginStudents (store : Store) (u p : String) : Except Unit (Option Json) :=
  match store.students with
  | .error e => .error e
  | .ok none => .ok none
  | .ok (some entries) =>
    match entries.find? (fun kv => kv.2.username == u && kv.2.password == p) with
    | some (k, s) => .ok (some (mkStudentSession k s))
    | none => .ok none

/-- Teacher probe, falling through to the student probe on no match. -/
def loginTeachers (store : Store) (u p : String) : Except Unit (Option Json) :=
  match store.teachers with
  | .error e => .error e
  | .ok none => loginStudents store u p
  | .ok (some entries) =>
    match entries.find? (fun kv => kv.2.username == u && kv.2.password == p) with
    | some (k, t) => .ok (some (mkTeacherSession k t))
    | none => loginStudents store u p

/-- The body of `login`'s `try` block: admin first, then teachers, then
students; `ok (some s)` = a session was built, `ok none` = no collection
matched, `error` = some awaited `dbGet` rejected. -/
def loginPure (store : Store) (u p : String) : Except Unit (Option Json) :=
  match store.admin with
  | .error e => .error e
  | .ok (some a) =>
    if a.username == u && a.password == p then .ok (some (mkAdminSession a))
    else loginTeachers store u p
  | .ok none => loginTeachers store u p

/-- The operation `login(username, password)`: on a match, `setUser(userData)` and
`localStorage.setItem('crescentUser', JSON.stringify(userData))` then
`{success: true}`; on no match `{success: false, error: 'Invalid username or
password'}`; the `catch` turns any rejected read into `{success: false,
error: 'Login failed. Please try again.'}`. -/
def login (store : Store) (u p : String) (st : AuthState) : LoginResult × AuthState :=
  match loginPure store u p with
  | .error _ => ({ success := false, error := some "Login failed. Please try again." }, st)
  | .ok none => ({ success := false, error := some "Invalid username or password" }, st)
  | .ok (some j) =>
    ({ success := true, error := none },
     { user := some j, slot := some (Json.stringify j) })

/-- The session-restore effect run once at mount: read the slot; a `null` or
empty string is falsy and skipped; otherwise `setUser(JSON.parse(saved))`
with no validation — `Except.error` models the uncaught `SyntaxError` when
the content is not JSON.  The result is the resulting `user` state. -/
def restoreSession (slot : Option String) : Except Unit (Option Json) :=
  match slot with
  | none => .ok none
  | some s =>
    if s = "" then .ok none
    else
      match Json.parse s with
      | some j => .ok (some j)
      | none => .error ()

/-- The operation `logout()`: clear the state and erase the slot. -/
def logout (_st : AuthState) : AuthState := { user := none, slot := none }

/-- The `UserRole` union type of the source (`'admin' | 'teacher' |
'student'`). -/
inductive UserRole where
  | admin | teacher | student
deriving Repr, DecidableEq

def UserRole.toStr : UserRole → String
  | .admin => "admin"
  | .teacher => "teacher"
  | .student => "student"

/-- A `Partial<User>` argument to `updateUser`: each declared field of
`User` may be present or absent. -/
structure PartialUser where
  id : Option String := none
  username : Option String := none
  name : Option String := none
  role : Option UserRole := none
  classId : Option String := none
  className : Option String := none
  passwordChanged : Option Bool := none
deriving Repr

/-- The own enumerable properties contributed by spreading a JavaScript
value (`{...v}`): an object's fields, a string's or array's index
properties, nothing for the other primitives. -/
def spreadFields : Json → List (String × Json)
  | .obj fs => fs
  | .str s => s.data.enum.map (fun p => (toString p.1, Json.str (String.mk [p.2])))
  | .arr xs => xs.enum.map (fun p => (toString p.1, p.2))
  | _ => []

/-- Set one property in a field list, JavaScript-object style: override in
place when the key exists, append otherwise. -/
def setField (fs : List (String × Json)) (k : String) (v : Json) : List (String × Json) :=
  if fs.any (fun kv => kv.1 == k) then
    fs.map (fun kv => if kv.1 == k then (kv.1, v) else kv)
  else fs ++ [(k, v)]

def applyField (fs : List (String × Json)) (k : String) : Option Json → List (String × Json)
  | none => fs
  | some v => setField fs k v

/-- The spread `{...user, ...data}`: the current session's fields, overridden by every
field present in the partial. -/
def mergeUser (u : Json) (d : PartialUser) : Json :=
  .obj (applyField (applyField (applyField (applyField (applyField (applyField (applyField
    (spreadFields u)
    "id" (d.id.map .str))
    "username" (d.username.map .str))
    "name" (d.name.map .str))
    "role" (d.role.map (fun r => .str r.toStr)))
    "classId" (d.classId.map .str))
    "className" (d.className.map .str))
    "passwordChanged" (d.passwordChanged.map .bool))

/-- The operation `updateUser(data)`: if a session is active, install the merged object
and re-persist its serialization; otherwise do nothing. -/
def updateUser (d : PartialUser) (st : AuthState) : AuthState :=
  match st.user with
  | none => st
  | some u =>
    let u2 := mergeUser u d
    { user := some u2, slot := some (Json.stringify u2) }

/-! ## Scoped entities (the snapshots the SupervisorDashboard listeners
receive) -/

/-- A record of the `classes` collection (fields the dashboard interface
declares besides the entry key). -/
structure ClassRec where
  name : String
  grade : String
  teacherId : String
  teacherName : String
deriving Repr, DecidableEq

/-- A record of the `announcements` collection; `classId` is optional,
absence (or the empty string, which the dashboard's `!a.classId` test
treats the same way) meaning a global announcement. -/
structure AnnouncementRec where
  title : String
  content : String
  priority : String
  createdAt : String
  author : String
  classId : Option String := none
deriving Repr, DecidableEq

/-- Models `data ? Object.entries(data).map(([id, r]) => ({id, ...r})) : []`:
a snapshot's entries in enumeration order, `none` being a null snapshot.
Stored records carry no `id` field, so the entry is faithfully the
(key, record) pair. -/
def entriesOf {α : Type} (data : Option (List (String × α))) : List (String × α) :=
  data.getD []

/-- Substring test (`String.prototype.includes`). -/
def chPrefix : List Char → List Char → Bool
  | [], _ => true
  | _ :: _, [] => false
  | a :: as, b :: bs => a == b && chPrefix as bs

def strIncludes (hay needle : String) : Bool :=
  go hay.data needle.data
where
  go : List Char → List Char → Bool
  | [], n => n.isEmpty
  | h :: t, n => chPrefix n (h :: t) || go t n

/-- Truthiness of `user?.assignedClassIds?.includes(x)` as the filter
callbacks test.  `none` models the `TypeError` thrown when
`assignedClassIds` is present but has no `includes` method; `some false`
covers both a genuine `false` and the `undefined` produced by optional
chaining on an absent user or absent/null field. -/
def assignedIncludes (user : Option Json) (x : String) : Option Bool :=
  match user with
  | none => some false
  | some u =>
    match u.get "assignedClassIds" with
    | none => some false
    | some .null => some false
    | some (.arr xs) => some (xs.any (fun j => Json.beq j (.str x)))
    | some (.str s) => some (strIncludes s x)
    | some _ => none

/-- Models `Array.prototype.filter` with a callback that may throw: `none` aborts. -/
def jsFilter {α : Type} (p : α → Option Bool) : List α → Option (List α)
  | [] => some []
  | x :: xs =>
    match p x, jsFilter p xs with
    | some b, some r => some (if b then x :: r else r)
    | _, _ => none

/-- The `classes` listener: keep the classes whose id (entry key) is in the
supervisor's `assignedClassIds`. -/
def classesListener (user : Option Json) (data : Option (List (String × ClassRec))) :
    Option (List (String × ClassRec)) :=
  jsFilter (fun kv => assignedIncludes user kv.1) (entriesOf data)

/-- The `students` listener: keep the students whose `classId` is in the
supervisor's `assignedClassIds`. -/
def studentsListener (user : Option Json) (data : Option (List (String × StudentRecord))) :
    Option (List (String × StudentRecord)) :=
  jsFilter (fun kv => assignedIncludes user kv.2.classId) (entriesOf data)

/-! ## Date parsing and the announcements sort -/

def digitVal (c : Char) : Option Nat :=
  if c.isDigit then some (c.toNat - 48) else none

def parse2 : List Char → Option (Nat × List Char)
  | a :: b :: r => do pure ((← digitVal a) * 10 + (← digitVal b), r)
  | _ => none

def parse4 : List Char → Option (Nat × List Char)
  | a :: b :: c :: d :: r => do
    pure ((((← digitVal a) * 10 + (← digitVal b)) * 10 + (← digitVal c)) * 10 + (← digitVal d), r)
  | _ => none

def expectChar (c : Char) : List Char → Option (List Char)
  | d :: r => if d == c then some r else none
  | [] => none

def isLeap (y : Nat) : Bool := (y % 4 == 0 && y % 100 != 0) || y % 400 == 0

def daysInMonth (y m : Nat) : Nat :=
  if m == 2 then (if isLeap y then 29 else 28)
  else if m == 4 || m == 6 || m == 9 || m == 11 then 30
  else 31

/-- Days from 1970-01-01 to the given civil date (proleptic Gregorian),
via the standard era decomposition with floor division. -/
def daysFromCivil (y m d : Int) : Int :=
  let y2 := if m ≤ 2 then y - 1 else y
  let era := Int.ediv y2 400
  let yoe := y2 - era * 400
  let mp := Int.emod (m + 9) 12
  let doy := Int.ediv (153 * mp + 2) 5 + d - 1
  let doe := yoe * 365 + Int.ediv yoe 4 - Int.ediv yoe 100 + doy
  era * 146097 + doe - 719468

/-- Milliseconds scaling of up to three fractional-second digits. -/
def fracMs (ds : List Char) : Option Nat :=
  match ds with
  | [a] => (digitVal a).map (· * 100)
  | [a, b] => do pure ((← digitVal a) * 100 + (← digitVal b) * 10)
  | [a, b, c] => do
    pure ((← digitVal a) * 100 + (← digitVal b) * 10 + (← digitVal c))
  | _ => none

/-- Models `new Date(s).getTime()` for the ISO 8601 date / date-time strings the
system stores (`toISOString` output and date-only strings), interpreted as
UTC; `none` models an invalid date (`NaN`). -/
def parseDateMs (s : String) : Option Int := do
  let cs := s.data
  let (y, cs) ← parse4 cs
  let cs ← expectChar '-' cs
  let (mo, cs) ← parse2 cs
  let cs ← expectChar '-' cs
  let (d, cs) ← parse2 cs
  if mo < 1 || 12 < mo then none
  else if d < 1 || daysInMonth y mo < d then none
  else
    let dayMs : Int := daysFromCivil (Int.ofNat y) (Int.ofNat mo) (Int.ofNat d) * 86400000
    match cs with
    | [] => pure dayMs
    | 'T' :: cs2 => do
      let (hh, cs3) ← parse2 cs2
      let cs4 ← expectChar ':' cs3
      let (mi, cs5) ← parse2 cs4
      if 23 < hh || 59 < mi then none
      else do
        let afterSec : Option (Nat × List Char) :=
          match cs5 with
          | ':' :: cs6 =>
            match parse2 cs6 with
            | some (ss, cs7) =>
              if 59 < ss then none
              else
                match cs7 with
                | '.' :: cs8 =>
                  let (ds, cs9) := scanDigits cs8
                  match fracMs ds with
                  | some ms => some (ss * 1000 + ms, cs9)
                  | none => none
                | _ => some (ss * 1000, cs7)
            | none => none
          | _ => some (0, cs5)
        match afterSec with
        | none => none
        | some (secMs, cs10) =>
          let rest := match cs10 with
            | 'Z' :: cs11 => some cs11
            | _ => some cs10
          match rest with
          | some [] =>
            pure (dayMs + (Int.ofNat hh) * 3600000 + (Int.ofNat mi) * 60000 + Int.ofNat secMs)
          | _ => none
    | _ => none

/-- The key the sort comparator derives from an announcement (invalid dates
collapse to the epoch; every stored `createdAt` is a valid ISO string). -/
def timeOf (s : String) : Int := (parseDateMs s).getD 0

/-- The comparator `(a, b) => new Date(b.createdAt).getTime() - new
Date(a.createdAt).getTime()` orders `a` before `b` exactly when `b`'s time
is at most `a`'s. -/
def annLE (a b : String × AnnouncementRec) : Prop :=
  timeOf b.2.createdAt ≤ timeOf a.2.createdAt

instance : DecidableRel annLE := fun a b =>
  inferInstanceAs (Decidable (timeOf b.2.createdAt ≤ timeOf a.2.createdAt))

instance : IsTotal (String × AnnouncementRec) annLE :=
  ⟨fun a b => Int.le_total (timeOf b.2.createdAt) (timeOf a.2.createdAt)⟩

instance : IsTrans (String × AnnouncementRec) annLE :=
  ⟨fun _ _ _ h1 h2 => le_trans h2 h1⟩

/-- Models `Array.prototype.sort`, which must sort stably by the comparator; since the
comparator is a consistent total preorder, its output is the unique stable
sort, here realized by a stable insertion sort. -/
def sortAnnouncements (l : List (String × AnnouncementRec)) :
    List (String × AnnouncementRec) :=
  l.insertionSort annLE

/-- Truthiness of the announcement filter callback
`!a.classId || user?.assignedClassIds?.includes(a.classId)`. -/
def annVisible (user : Option Json) (a : AnnouncementRec) : Option Bool :=
  match a.classId with
  | none => some true
  | some cid => if cid = "" then some true else assignedIncludes user cid

/-- The `announcements` listener: keep global announcements and those for
an assigned class, then sort by `createdAt` descending. -/
def announcementsListener (user : Option Json)
    (data : Option (List (String × AnnouncementRec))) :
    Option (List (String × AnnouncementRec)) :=
  (jsFilter (fun kv => annVisible user kv.2) (entriesOf data)).map sortAnnouncements

end SchoolApp

/-! ## Parser and serializer facts -/

namespace SchoolApp

theorem hexVal_hexDigitChar : ∀ n, n < 16 → hexVal (hexDigitChar n) = some n := by decide

theorem hexVal_zero : hexVal '0' = some 0 := by decide

theorem escapeChar_length_pos (c : Char) : 1 ≤ (escapeChar c).length := by
  unfold escapeChar; split_ifs <;> simp

theorem length_le_escList (l : List Char) : l.length ≤ (escList l).length := by
  induction l with
  | nil => simp [escList]
  | cons c cs ih =>
    simp only [escList, List.length_append, List.length_cons]
    have := escapeChar_length_pos c
    omega

theorem skipWs_cons (c : Char) (cs : List Char) (h : isWsChar c = false) :
    skipWs (c :: cs) = c :: cs := by
  simp [skipWs, h]

theorem expectLit_self (lit : List Char) (rest : List Char) :
    expectLit lit (lit ++ rest) = some rest := by
  induction lit with
  | nil => simp [expectLit]
  | cons c cs ih => simp [expectLit, ih]

theorem parseStringBody_rt (s : List Char) :
    ∀ (rest : List Char) (fuel : Nat), s.length + 1 ≤ fuel →
    parseStringBody fuel (escList s ++ '"' :: rest) = some (s, rest) := by
  induction s with
  | nil =>
    intro rest fuel hf
    match fuel, hf with
    | fuel + 1, _ => simp [escList, parseStringBody]
  | cons c cs ih =>
    intro rest fuel hf
    match fuel, hf with
    | fuel + 1, hf =>

      have hfuel : cs.length + 1 ≤ fuel := by simp at hf; omega
      by_cases h1 : c = '"'
      · subst h1
        simp only [escList, List.cons_append, List.append_assoc]
        simp [parseStringBody, escapeChar, unescape, ih _ _ hfuel]
      · by_cases h2 : c = '\\'
        · subst h2
          simp only [escList, List.cons_append, List.append_assoc]
          simp [parseStringBody, escapeChar, unescape, ih _ _ hfuel]
        · by_cases h3 : c = '\x08'
          · subst h3
            simp only [escList, List.cons_append, List.append_assoc]
            simp [parseStringBody, escapeChar, unescape, ih _ _ hfuel]
          · by_cases h4 : c = '\x09'
            · subst h4
              simp only [escList, List.cons_append, List.append_assoc]
              simp [parseStringBody, escapeChar, unescape, ih _ _ hfuel]
            · by_cases h5 : c = '\x0a'
              · subst h5
                simp only [escList, List.cons_append, List.append_assoc]
                simp [parseStringBody, escapeChar, unescape, ih _ _ hfuel]
              · by_cases h6 : c = '\x0c'
                · subst h6
                  simp only [escList, List.cons_append, List.append_assoc]
                  simp [parseStringBody, escapeChar, unescape, ih _ _ hfuel]
                · by_cases h7 : c = '\x0d'
                  · subst h7
                    simp only [escList, List.cons_append, List.append_assoc]
                    simp [parseStringBody, escapeChar, unescape, ih _ _ hfuel]
                  · by_cases h8 : c.toNat < 32
                    · have hdiv : c.toNat / 16 < 16 := by omega
                      have hmod : c.toNat % 16 < 16 := by omega
                      have hv : c.toNat / 16 * 16 + c.toNat % 16 = c.toNat := by omega
                      have h55 : c.toNat < 55296 := by omega
                      simp only [escList, List.cons_append, List.append_assoc]
                      simp [parseStringBody, escapeChar, h1, h2, h3, h4, h5, h6, h7, h8, unescape,
                        hexVal_hexDigitChar _ hdiv, hexVal_hexDigitChar _ hmod, hexVal_zero, hv, h55,
                        Char.ofNat_toNat, ih _ _ hfuel]
                    · simp only [escList, List.cons_append, List.append_assoc]
                      simp [parseStringBody, escapeChar, h1, h2, h3, h4, h5, h6, h7, h8,
                        ih _ _ hfuel]

end SchoolApp

namespace SchoolApp

/-- The value shapes a session object stores: strings and booleans. -/
def isPrim : Json → Bool
  | .str _ => true
  | .bool _ => true
  | _ => false

theorem parseVal_prim_rt (j : Json) (hp : isPrim j = true) (rest : List Char) :
    ∀ fuel, 1 ≤ fuel → parseVal fuel (stringifyV j ++ rest) = some (j, rest) := by
  intro fuel hf
  match fuel, hf with
  | fuel + 1, _ =>
    match j, hp with
    | .str s, _ =>
      obtain ⟨l⟩ := s
      have hs := parseStringBody_rt l rest ((escList l ++ '"' :: rest).length + 1)
        (by have := length_le_escList l
            simp only [List.length_append, List.length_cons]
            omega)
      simp only [List.length_append, List.length_cons] at hs
      simp only [stringifyV, List.cons_append, List.append_assoc, List.singleton_append]
      simp [parseVal, skipWs_cons, isWsChar, hs]
    | .bool true, _ =>
      rw [show stringifyV (Json.bool true) = 't' :: ['r', 'u', 'e'] from rfl]
      simp only [List.cons_append]
      simp [parseVal, skipWs_cons, isWsChar, expectLit]
    | .bool false, _ =>
      rw [show stringifyV (Json.bool false) = 'f' :: ['a', 'l', 's', 'e'] from rfl]
      simp only [List.cons_append]
      simp [parseVal, skipWs_cons, isWsChar, expectLit]

theorem parseFields_rt (fs : List (String × Json)) (hp : ∀ kv ∈ fs, isPrim kv.2 = true)
    (hne : fs ≠ []) (rest : List Char) :
    ∀ fuel, fs.length + 2 ≤ fuel →
    parseFields fuel (stringifyFields fs ++ '}' :: rest) = some (fs, rest) := by
  induction fs with
  | nil => exact absurd rfl hne
  | cons kv tail ih =>
    obtain ⟨k, v⟩ := kv
    obtain ⟨l⟩ := k
    intro fuel hf
    match fuel, hf with
    | fuel + 1, hf =>
      have hv : isPrim v = true := hp _ (List.mem_cons_self _ _)
      have hfuel1 : 1 ≤ fuel := by simp only [List.length_cons] at hf; omega
      match tail with
      | [] =>
        have hs := parseStringBody_rt l (':' :: (stringifyV v ++ '}' :: rest))
          ((escList l ++ '"' :: ':' :: (stringifyV v ++ '}' :: rest)).length + 1)
          (by have := length_le_escList l
              simp only [List.length_append, List.length_cons]
              omega)
        simp only [List.length_append, List.length_cons] at hs
        simp only [stringifyFields, List.cons_append, List.append_assoc]
        simp [parseFields, skipWs_cons, isWsChar, hs, parseVal_prim_rt v hv _ fuel hfuel1]
      | lw :: tail2 =>
        have htail : (lw :: tail2) ≠ [] := by simp
        have hptail : ∀ kv ∈ lw :: tail2, isPrim kv.2 = true := by
          intro x hx; exact hp x (List.mem_cons_of_mem _ hx)
        have hfuel2 : (lw :: tail2).length + 2 ≤ fuel := by
          simp only [List.length_cons] at hf ⊢; omega
        have hs := parseStringBody_rt l
          (':' :: (stringifyV v ++ ',' :: (stringifyFields (lw :: tail2) ++ '}' :: rest)))
          ((escList l ++ '"' :: ':' :: (stringifyV v ++ ',' ::
            (stringifyFields (lw :: tail2) ++ '}' :: rest))).length + 1)
          (by have := length_le_escList l
              simp only [List.length_append, List.length_cons]
              omega)
        simp only [List.length_append, List.length_cons] at hs
        simp only [stringifyFields, List.cons_append, List.append_assoc]
        simp [parseFields, skipWs_cons, isWsChar, hs, parseVal_prim_rt v hv _ fuel hfuel1,
          ih hptail htail fuel hfuel2]

theorem length_fields_le (fs : List (String × Json)) :
    fs.length ≤ (stringifyFields fs).length := by
  induction fs with
  | nil => simp [stringifyFields]
  | cons kv tail ih =>
    obtain ⟨k, v⟩ := kv
    match tail with
    | [] => simp [stringifyFields]
    | lw :: tail2 =>
      simp only [stringifyFields, List.length_append, List.length_cons] at ih ⊢
      omega

theorem stringifyFields_head (fs : List (String × Json)) (hne : fs ≠ []) :
    ∃ t, stringifyFields fs = '"' :: t := by
  match fs with
  | [] => exact absurd rfl hne
  | [(k, v)] => exact ⟨_, rfl⟩
  | (k, v) :: lw :: tail2 => exact ⟨_, rfl⟩

theorem parseVal_flat_rt (fs : List (String × Json))
    (hp : ∀ kv ∈ fs, isPrim kv.2 = true) (hne : fs ≠ []) (rest : List Char) :
    ∀ fuel, fs.length + 3 ≤ fuel →
    parseVal fuel (stringifyV (.obj fs) ++ rest) = some (.obj fs, rest) := by
  intro fuel hf
  match fuel, hf with
  | fuel + 1, hf =>
    obtain ⟨t, ht⟩ := stringifyFields_head fs hne
    have hfr := parseFields_rt fs hp hne rest fuel (by omega)
    rw [ht] at hfr
    simp only [List.cons_append] at hfr
    simp only [stringifyV, List.cons_append, List.append_assoc, List.singleton_append, ht]
    simp [parseVal, skipWs_cons, isWsChar, hfr]

theorem parse_stringify_flat (fs : List (String × Json))
    (hp : ∀ kv ∈ fs, isPrim kv.2 = true) (hne : fs ≠ []) :
    Json.parse (Json.stringify (.obj fs)) = some (.obj fs) := by
  have hlen := length_fields_le fs
  have hlen2 : (stringifyV (Json.obj fs)).length = (stringifyFields fs).length + 2 := by
    simp [stringifyV]
  have hrt := parseVal_flat_rt fs hp hne []
    (2 * (String.mk (stringifyV (Json.obj fs))).data.length + 2)
    (by rw [show (String.mk (stringifyV (Json.obj fs))).data = stringifyV (Json.obj fs) from rfl,
          hlen2]
        omega)
  rw [List.append_nil] at hrt
  unfold Json.parse Json.stringify
  rw [show (String.mk (stringifyV (Json.obj fs))).data = stringifyV (Json.obj fs) from rfl] at hrt ⊢
  rw [hrt]
  simp [skipWs]

end SchoolApp


/-! ## Session facts -/

namespace SchoolApp

theorem parse_stringify_mkAdminSession (a : AdminRecord) :
    Json.parse (Json.stringify (mkAdminSession a)) = some (mkAdminSession a) := by
  apply parse_stringify_flat
  · intro kv h
    simp only [mkAdminSession, List.mem_cons, List.not_mem_nil, or_false] at h
    rcases h with rfl | rfl | rfl | rfl <;> rfl
  · simp [mkAdminSession]

theorem parse_stringify_mkTeacherSession (k : String) (t : TeacherRecord) :
    Json.parse (Json.stringify (mkTeacherSession k t)) = some (mkTeacherSession k t) := by
  apply parse_stringify_flat
  · intro kv h
    simp only [mkTeacherSession, List.mem_cons, List.not_mem_nil, or_false] at h
    rcases h with rfl | rfl | rfl | rfl <;> rfl
  · simp [mkTeacherSession]

theorem parse_stringify_mkStudentSession (k : String) (s : StudentRecord) :
    Json.parse (Json.stringify (mkStudentSession k s)) = some (mkStudentSession k s) := by
  apply parse_stringify_flat
  · intro kv h
    simp only [mkStudentSession, List.mem_cons, List.not_mem_nil, or_false] at h
    rcases h with rfl | rfl | rfl | rfl | rfl | rfl | rfl <;> rfl
  · simp [mkStudentSession]

/-- Sessions serialize to a nonempty string (they stringify to an object
literal). -/
theorem stringify_obj_ne_empty (fs : List (String × Json)) :
    Json.stringify (.obj fs) ≠ "" := by
  simp only [Json.stringify, stringifyV]
  intro h
  have h2 : ('{' :: (stringifyFields fs ++ ['}'])) = [] := congrArg String.data h
  simp at h2

theorem loginStudents_shape (store : Store) (u p : String) (j : Json)
    (h : loginStudents store u p = .ok (some j)) : ∃ k s, j = mkStudentSession k s := by
  unfold loginStudents at h
  split at h
  · exact absurd h (by simp)
  · exact absurd h (by simp)
  · split at h
    · rename_i k srec hfind
      simp only [Except.ok.injEq, Option.some.injEq] at h
      exact ⟨k, srec, h.symm⟩
    · exact absurd h (by simp)

theorem loginTeachers_shape (store : Store) (u p : String) (j : Json)
    (h : loginTeachers store u p = .ok (some j)) :
    (∃ k t, j = mkTeacherSession k t) ∨ (∃ k s, j = mkStudentSession k s) := by
  unfold loginTeachers at h
  split at h
  · exact absurd h (by simp)
  · exact Or.inr (loginStudents_shape store u p j h)
  · split at h
    · rename_i k trec hfind
      simp only [Except.ok.injEq, Option.some.injEq] at h
      exact Or.inl ⟨k, trec, h.symm⟩
    · exact Or.inr (loginStudents_shape store u p j h)

/-- Any session `loginPure` can deliver was built by one of the three
session constructors. -/
theorem loginPure_shape (store : Store) (u p : String) (j : Json)
    (h : loginPure store u p = .ok (some j)) :
    (∃ a, j = mkAdminSession a) ∨ (∃ k t, j = mkTeacherSession k t) ∨
    (∃ k s, j = mkStudentSession k s) := by
  unfold loginPure at h
  split at h
  · exact absurd h (by simp)
  · split at h
    · rename_i a _ _
      simp only [Except.ok.injEq, Option.some.injEq] at h
      exact Or.inl ⟨a, h.symm⟩
    · exact (loginTeachers_shape store u p j h).imp_left (fun x => x) |>.imp (fun x => x) (fun x => x) |> Or.inr
  · exact Or.inr (loginTeachers_shape store u p j h)

end SchoolApp

/-! ## The role invariant, filter, and merge facts -/

namespace SchoolApp

def hasField (j : Json) (k : String) : Bool := (Json.get j k).isSome

/-- The spec's session invariant: which of `{classId, className}` /
`{assignedClassIds}` is populated is determined by `role` — students carry
the class pair, supervisors the assignment list, admin and teacher
neither. -/
def sessionInvariant (j : Json) : Bool :=
  match Json.get j "role" with
  | some (.str r) =>
    if r == "admin" || r == "teacher" then
      !hasField j "classId" && !hasField j "className" && !hasField j "assignedClassIds"
    else if r == "student" then
      hasField j "classId" && hasField j "className" && !hasField j "assignedClassIds"
    else if r == "supervisor" then
      hasField j "assignedClassIds" && !hasField j "classId" && !hasField j "className"
    else false
  | _ => false

theorem sessionInvariant_mkAdminSession (a : AdminRecord) :
    sessionInvariant (mkAdminSession a) = true := rfl

theorem sessionInvariant_mkTeacherSession (k : String) (t : TeacherRecord) :
    sessionInvariant (mkTeacherSession k t) = true := rfl

theorem sessionInvariant_mkStudentSession (k : String) (s : StudentRecord) :
    sessionInvariant (mkStudentSession k s) = true := rfl

theorem jsFilter_eq_filter {α : Type} (p : α → Option Bool) (q : α → Bool)
    (xs : List α) (h : ∀ x ∈ xs, p x = some (q x)) :
    jsFilter p xs = some (xs.filter q) := by
  induction xs with
  | nil => rfl
  | cons x xs ih =>
    have hx := h x (List.mem_cons_self _ _)
    have hxs := ih (fun y hy => h y (List.mem_cons_of_mem _ hy))
    simp [jsFilter, hx, hxs, List.filter_cons]

theorem jsFilter_sublist {α : Type} (p : α → Option Bool) (xs r : List α)
    (h : jsFilter p xs = some r) : r.Sublist xs := by
  induction xs generalizing r with
  | nil =>
    simp only [jsFilter, Option.some.injEq] at h
    simp [← h]
  | cons x xs ih =>
    simp only [jsFilter] at h
    match hp : p x, hr : jsFilter p xs with
    | some b, some r2 =>
      rw [hp, hr] at h
      simp only [Option.some.injEq] at h
      subst h
      cases b with
      | true => exact (ih r2 hr).cons₂ x
      | false => exact (ih r2 hr).cons x
    | some b, none => rw [hp, hr] at h; exact absurd h (by simp)
    | none, _ => rw [hp] at h; exact absurd h (by simp)

theorem lookupLast_append_self (fs : List (String × Json)) (k : String) (v : Json) :
    lookupLast (fs ++ [(k, v)]) k = some v := by
  induction fs with
  | nil => simp [lookupLast]
  | cons kv rest ih => simp [lookupLast, ih]

theorem lookupLast_append_other (fs : List (String × Json)) (k k2 : String) (v : Json)
    (h : k2 ≠ k) : lookupLast (fs ++ [(k, v)]) k2 = lookupLast fs k2 := by
  have hbeq : (k == k2) = false := by simpa using fun he => h he.symm
  induction fs with
  | nil => simp [lookupLast, hbeq]
  | cons kv rest ih => simp [lookupLast, ih]

theorem lookupLast_map_override (fs : List (String × Json)) (k k2 : String) (v : Json) :
    lookupLast (fs.map (fun kv => if kv.1 == k then (kv.1, v) else kv)) k2 =
      if k2 = k then (if fs.any (fun kv => kv.1 == k) then some v else none)
      else lookupLast fs k2 := by
  induction fs with
  | nil => by_cases h : k2 = k <;> simp [lookupLast, h]
  | cons kv rest ih =>
    simp only [List.map_cons, List.any_cons, lookupLast, ih]
    by_cases h2 : k2 = k
    · simp only [if_pos h2]
      by_cases hk : (kv.1 == k) = true
      · have hbeq : (kv.1 == k2) = true := by rw [h2]; exact hk
        by_cases hany : (rest.any (fun kv => kv.1 == k)) = true
        · simp [hk, hany, hbeq]
        · simp [hk, hany, hbeq]
      · have hbeq : (kv.1 == k2) = false := by rw [h2]; simpa using hk
        by_cases hany : (rest.any (fun kv => kv.1 == k)) = true
        · simp [hk, hany, hbeq]
        · simp [hk, hany, hbeq]
    · simp only [if_neg h2]
      by_cases hk : (kv.1 == k) = true
      · have hbeq : (kv.1 == k2) = false := by
          have hke : kv.1 = k := by simpa using hk
          rw [hke]
          simpa using fun he => h2 he.symm
        cases hl : lookupLast rest k2 <;> simp [hk, hbeq, hl]
      · cases hl : lookupLast rest k2 <;> simp [hk, hl]

theorem lookupLast_setField_eq (fs : List (String × Json)) (k : String) (v : Json) :
    lookupLast (setField fs k v) k = some v := by
  unfold setField
  by_cases hany : (fs.any (fun kv => kv.1 == k)) = true
  · rw [if_pos hany, lookupLast_map_override, if_pos rfl, if_pos hany]
  · rw [if_neg hany, lookupLast_append_self]

theorem lookupLast_setField_ne (fs : List (String × Json)) (k k2 : String) (v : Json)
    (h : k2 ≠ k) : lookupLast (setField fs k v) k2 = lookupLast fs k2 := by
  unfold setField
  by_cases hany : (fs.any (fun kv => kv.1 == k)) = true
  · rw [if_pos hany, lookupLast_map_override, if_neg h]
  · rw [if_neg hany, lookupLast_append_other _ _ _ _ h]

theorem lookupLast_applyField_eq (fs : List (String × Json)) (k : String)
    (ov : Option Json) :
    lookupLast (applyField fs k ov) k =
      match ov with | some v => some v | none => lookupLast fs k := by
  cases ov with
  | none => rfl
  | some v => exact lookupLast_setField_eq fs k v

theorem lookupLast_applyField_ne (fs : List (String × Json)) (k k2 : String)
    (ov : Option Json) (h : k2 ≠ k) :
    lookupLast (applyField fs k ov) k2 = lookupLast fs k2 := by
  cases ov with
  | none => rfl
  | some v => exact lookupLast_setField_ne fs k k2 v h

end SchoolApp

/-! ## Claims -/

namespace SchoolApp

theorem parse_empty : Json.parse "" = none := rfl

/-- C1 counterexample: the durable slot holding `"{"` is malformed (it does
not parse), yet `restoreSession` does not leave the state empty without
error — `JSON.parse` raises an uncaught `SyntaxError`. -/
theorem C1_restore_malformed_counterexample :
    Json.parse "\x7b" = none ∧ restoreSession (some "\x7b") = Except.error () :=
  ⟨rfl, rfl⟩

/-- C1 (amended): an absent slot — or empty-string content, which the
presence test treats as absent — leaves the state empty and reports no
error; any other content is `JSON.parse`d with no validation, so content
that is not valid JSON raises an uncaught parse error, and any parsed value
is installed as-is, well-formed `Session` or not. -/
theorem C1_restore_amended (s : String) (j : Json) :
    restoreSession none = Except.ok none ∧
    restoreSession (some "") = Except.ok none ∧
    (s ≠ "" → Json.parse s = none → restoreSession (some s) = Except.error ()) ∧
    (Json.parse s = some j → restoreSession (some s) = Except.ok (some j)) := by
  refine ⟨rfl, rfl, ?_, ?_⟩
  · intro hne hp
    simp [restoreSession, hne, hp]
  · intro hp
    have hne : s ≠ "" := by
      intro he
      rw [he, parse_empty] at hp
      exact absurd hp (by simp)
    simp [restoreSession, hne, hp]

theorem C1_restore_amended_witness :
    (("\x7b" : String) ≠ "" ∧ Json.parse "\x7b" = none) ∧
    restoreSession (some "\x7b") = Except.error () :=
  ⟨⟨by decide, rfl⟩, ((C1_restore_amended "\x7b" Json.null).2.2.1 (by decide) rfl)⟩

/-- C2 counterexample: the admin session satisfies the invariant, but
`updateUser {classId: "C1"}` (a legal `Partial<User>`) merges a `classId`
onto it, producing a session with role `admin` that carries `classId` —
so `updateUser` does not preserve the invariant. -/
theorem C2_invariant_counterexample :
    sessionInvariant
      (mkAdminSession { id := "a1", username := "root", password := "pw", name := "Admin" }) =
      true ∧
    ((updateUser { classId := some "C1" }
      { user := some (mkAdminSession
          { id := "a1", username := "root", password := "pw", name := "Admin" }),
        slot := none }).user.map sessionInvariant) = some false :=
  ⟨rfl, rfl⟩

/-- C2 (amended): `login` does establish the invariant — every session it
installs satisfies it, and on failure it leaves the state untouched — but
`restoreSession` installs parsed content unvalidated (some parsed values it
installs violate the invariant) and `updateUser` merges whatever fields the
partial supplies (it can take an invariant-satisfying session to a
violating one), so neither preserves the invariant in general. -/
theorem C2_login_invariant_amended (store : Store) (u p : String) (st : AuthState) :
    ((login store u p st).2.user = st.user ∨
      (∃ j, (login store u p st).2.user = some j ∧ sessionInvariant j = true)) ∧
    (∃ s j, Json.parse s = some j ∧ sessionInvariant j = false ∧
      restoreSession (some s) = Except.ok (some j)) ∧
    (∃ st2 d, (AuthState.user st2).map sessionInvariant = some true ∧
      ((updateUser d st2).user.map sessionInvariant) = some false) := by
  refine ⟨?_, ⟨"\x7b\x7d", .obj [], rfl, rfl, rfl⟩, ?_⟩
  · unfold login
    cases hlp : loginPure store u p with
    | error e => exact Or.inl rfl
    | ok oj =>
      cases oj with
      | none => exact Or.inl rfl
      | some j =>
        refine Or.inr ⟨j, rfl, ?_⟩
        rcases loginPure_shape store u p j hlp with ⟨a, rfl⟩ | ⟨k, t, rfl⟩ | ⟨k, s, rfl⟩
        · exact sessionInvariant_mkAdminSession a
        · exact sessionInvariant_mkTeacherSession k t
        · exact sessionInvariant_mkStudentSession k s
  · exact ⟨{ user := some (mkAdminSession { id := "a1", username := "root", password := "pw", name := "Admin" }), slot := none }, { classId := some "C1" }, rfl, rfl⟩

theorem C2_login_invariant_amended_witness :
    (login
      { admin := Except.ok (some { id := "a1", username := "root", password := "pw", name := "Admin" }),
        teachers := Except.ok none, students := Except.ok none }
      "root" "pw" { user := none, slot := none }).2.user = none ∨
    (∃ j, (login
      { admin := Except.ok (some { id := "a1", username := "root", password := "pw", name := "Admin" }),
        teachers := Except.ok none, students := Except.ok none }
      "root" "pw" { user := none, slot := none }).2.user = some j ∧
      sessionInvariant j = true) :=
  (C2_login_invariant_amended _ "root" "pw" _).1

end SchoolApp

namespace SchoolApp

/-- No admin match: the admin record is absent or its credentials differ. -/
def adminNoMatch (aOpt : Option AdminRecord) (u p : String) : Prop :=
  ∀ a, aOpt = some a → (a.username == u && a.password == p) = false

/-- No teacher match: the collection is absent or no entry's credentials
equal the inputs. -/
def noTeacherMatch (tOpt : Option (List (String × TeacherRecord))) (u p : String) : Prop :=
  ∀ l, tOpt = some l → ∀ kv ∈ l, (kv.2.username == u && kv.2.password == p) = false

/-- No student match. -/
def noStudentMatch (sOpt : Option (List (String × StudentRecord))) (u p : String) : Prop :=
  ∀ l, sOpt = some l → ∀ kv ∈ l, (kv.2.username == u && kv.2.password == p) = false

theorem loginStudents_of_noMatch (store : Store) (u p : String)
    (sOpt : Option (List (String × StudentRecord)))
    (hS : store.students = .ok sOpt) (hns : noStudentMatch sOpt u p) :
    loginStudents store u p = .ok none := by
  unfold loginStudents
  rw [hS]
  cases sOpt with
  | none => rfl
  | some l =>
    have hf : l.find? (fun kv => kv.2.username == u && kv.2.password == p) = none := by
      rw [List.find?_eq_none]
      intro x hx
      simp [hns l rfl x hx]
    simp [hf]

theorem loginTeachers_of_noMatch (store : Store) (u p : String)
    (tOpt : Option (List (String × TeacherRecord)))
    (hT : store.teachers = .ok tOpt) (hnt : noTeacherMatch tOpt u p) :
    loginTeachers store u p = loginStudents store u p := by
  unfold loginTeachers
  rw [hT]
  cases tOpt with
  | none => rfl
  | some l =>
    have hf : l.find? (fun kv => kv.2.username == u && kv.2.password == p) = none := by
      rw [List.find?_eq_none]
      intro x hx
      simp [hnt l rfl x hx]
    simp [hf]

theorem loginPure_of_adminNoMatch (store : Store) (u p : String)
    (aOpt : Option AdminRecord) (hA : store.admin = .ok aOpt)
    (hna : adminNoMatch aOpt u p) :
    loginPure store u p = loginTeachers store u p := by
  unfold loginPure
  rw [hA]
  cases aOpt with
  | none => rfl
  | some a => simp [hna a rfl]

/-- C3: `login` probes the collections in the fixed order admin, teacher,
student, stopping at the first match: (i) whenever the admin record
matches, the admin session is returned whatever the teacher and student
collections hold (those reads are never performed — any admin/teacher
credential collision resolves to the admin session); (ii) with no admin
match, the first matching teacher entry in enumeration order wins,
whatever the student read would give; (iii) with no admin or teacher
match, the first matching student entry wins. -/
theorem C3_login_priority :
    (∀ (a : AdminRecord) (tE : Except Unit (Option (List (String × TeacherRecord))))
       (sE : Except Unit (Option (List (String × StudentRecord)))) (u p : String)
       (st : AuthState),
      (a.username == u && a.password == p) = true →
      login { admin := .ok (some a), teachers := tE, students := sE } u p st =
        ({ success := true, error := none },
         { user := some (mkAdminSession a),
           slot := some (Json.stringify (mkAdminSession a)) })) ∧
    (∀ (aOpt : Option AdminRecord) (l1 l2 : List (String × TeacherRecord)) (k : String)
       (t : TeacherRecord) (sE : Except Unit (Option (List (String × StudentRecord))))
       (u p : String) (st : AuthState),
      adminNoMatch aOpt u p →
      (∀ kv ∈ l1, (kv.2.username == u && kv.2.password == p) = false) →
      (t.username == u && t.password == p) = true →
      login { admin := .ok aOpt, teachers := .ok (some (l1 ++ (k, t) :: l2)),
              students := sE } u p st =
        ({ success := true, error := none },
         { user := some (mkTeacherSession k t),
           slot := some (Json.stringify (mkTeacherSession k t)) })) ∧
    (∀ (aOpt : Option AdminRecord) (tOpt : Option (List (String × TeacherRecord)))
       (l1 l2 : List (String × StudentRecord)) (k : String) (s : StudentRecord)
       (u p : String) (st : AuthState),
      adminNoMatch aOpt u p → noTeacherMatch tOpt u p →
      (∀ kv ∈ l1, (kv.2.username == u && kv.2.password == p) = false) →
      (s.username == u && s.password == p) = true →
      login { admin := .ok aOpt, teachers := .ok tOpt,
              students := .ok (some (l1 ++ (k, s) :: l2)) } u p st =
        ({ success := true, error := none },
         { user := some (mkStudentSession k s),
           slot := some (Json.stringify (mkStudentSession k s)) })) := by
  refine ⟨?_, ?_, ?_⟩
  · intro a tE sE u p st hm
    unfold login loginPure
    simp only [hm]
    rfl
  · intro aOpt l1 l2 k t sE u p st hna hl1 hm
    unfold login
    rw [loginPure_of_adminNoMatch _ _ _ aOpt rfl hna]
    unfold loginTeachers
    simp only
    have hf : (l1 ++ (k, t) :: l2).find?
        (fun kv => kv.2.username == u && kv.2.password == p) = some (k, t) := by
      rw [List.find?_append]
      have h1 : l1.find? (fun kv => kv.2.username == u && kv.2.password == p) = none := by
        rw [List.find?_eq_none]; intro x hx; simp [hl1 x hx]
      rw [h1, Option.none_or]
      exact List.find?_cons_of_pos _ (by simpa using hm)
    rw [hf]
  · intro aOpt tOpt l1 l2 k s u p st hna hnt hl1 hm
    unfold login
    rw [loginPure_of_adminNoMatch _ _ _ aOpt rfl hna,
      loginTeachers_of_noMatch _ _ _ tOpt rfl hnt]
    unfold loginStudents
    simp only
    have hf : (l1 ++ (k, s) :: l2).find?
        (fun kv => kv.2.username == u && kv.2.password == p) = some (k, s) := by
      rw [List.find?_append]
      have h1 : l1.find? (fun kv => kv.2.username == u && kv.2.password == p) = none := by
        rw [List.find?_eq_none]; intro x hx; simp [hl1 x hx]
      rw [h1, Option.none_or]
      exact List.find?_cons_of_pos _ (by simpa using hm)
    rw [hf]

theorem C3_login_priority_witness :
    (({ id := "a1", username := "joint", password := "pw",
        name := "Admin" } : AdminRecord).username == "joint" &&
      ({ id := "a1", username := "joint", password := "pw",
         name := "Admin" } : AdminRecord).password == "pw") = true ∧
    login { admin := .ok (some { id := "a1", username := "joint", password := "pw",
                                 name := "Admin" }),
            teachers := .ok (some [("t1", { name := "T", username := "joint",
                                            password := "pw", subject := "Math" })]),
            students := .ok none } "joint" "pw" { user := none, slot := none } =
      ({ success := true, error := none },
       { user := some (mkAdminSession { id := "a1", username := "joint", password := "pw",
                                        name := "Admin" }),
         slot := some (Json.stringify (mkAdminSession
           { id := "a1", username := "joint", password := "pw", name := "Admin" })) }) :=
  ⟨by decide, C3_login_priority.1 _ _ _ "joint" "pw" _ (by decide)⟩

end SchoolApp

namespace SchoolApp

/-- C4: a matching record — exact, case-sensitive string equality on both
`username` and `password` — with no higher-priority collection matching
yields a session whose `role` names the collection it was found in, whose
`id` is the record's key (the admin record's own declared `id` on the admin
path), and whose role-specific fields are copied from the record
(`classId`, `className`, and `passwordChanged` — `student.passwordChanged
|| false` — for students). -/
theorem C4_session_contents :
    (∀ (a : AdminRecord) (tE : Except Unit (Option (List (String × TeacherRecord))))
       (sE : Except Unit (Option (List (String × StudentRecord)))) (u p : String)
       (st : AuthState),
      (a.username == u && a.password == p) = true →
      (login { admin := .ok (some a), teachers := tE, students := sE } u p st).2.user =
          some (mkAdminSession a) ∧
      Json.get (mkAdminSession a) "role" = some (.str "admin") ∧
      Json.get (mkAdminSession a) "id" = some (.str a.id) ∧
      Json.get (mkAdminSession a) "username" = some (.str a.username) ∧
      Json.get (mkAdminSession a) "name" = some (.str a.name)) ∧
    (∀ (aOpt : Option AdminRecord) (entries : List (String × TeacherRecord)) (k : String)
       (t : TeacherRecord) (sE : Except Unit (Option (List (String × StudentRecord))))
       (u p : String) (st : AuthState),
      adminNoMatch aOpt u p →
      entries.find? (fun kv => kv.2.username == u && kv.2.password == p) = some (k, t) →
      (login { admin := .ok aOpt, teachers := .ok (some entries), students := sE }
          u p st).2.user = some (mkTeacherSession k t) ∧
      Json.get (mkTeacherSession k t) "role" = some (.str "teacher") ∧
      Json.get (mkTeacherSession k t) "id" = some (.str k) ∧
      Json.get (mkTeacherSession k t) "username" = some (.str t.username) ∧
      Json.get (mkTeacherSession k t) "name" = some (.str t.name)) ∧
    (∀ (aOpt : Option AdminRecord) (tOpt : Option (List (String × TeacherRecord)))
       (entries : List (String × StudentRecord)) (k : String) (s : StudentRecord)
       (u p : String) (st : AuthState),
      adminNoMatch aOpt u p → noTeacherMatch tOpt u p →
      entries.find? (fun kv => kv.2.username == u && kv.2.password == p) = some (k, s) →
      (login { admin := .ok aOpt, teachers := .ok tOpt, students := .ok (some entries) }
          u p st).2.user = some (mkStudentSession k s) ∧
      Json.get (mkStudentSession k s) "role" = some (.str "student") ∧
      Json.get (mkStudentSession k s) "id" = some (.str k) ∧
      Json.get (mkStudentSession k s) "username" = some (.str s.username) ∧
      Json.get (mkStudentSession k s) "name" = some (.str s.name) ∧
      Json.get (mkStudentSession k s) "classId" = some (.str s.classId) ∧
      Json.get (mkStudentSession k s) "className" = some (.str s.className) ∧
      Json.get (mkStudentSession k s) "passwordChanged" =
        some (.bool (s.passwordChanged.getD false)) ∧
      (∀ b, s.passwordChanged = some b →
        Json.get (mkStudentSession k s) "passwordChanged" = some (.bool b))) := by
  refine ⟨?_, ?_, ?_⟩
  · intro a tE sE u p st hm
    refine ⟨?_, rfl, rfl, rfl, rfl⟩
    unfold login loginPure
    simp only [hm]
    rfl
  · intro aOpt entries k t sE u p st hna hf
    refine ⟨?_, rfl, rfl, rfl, rfl⟩
    unfold login
    rw [loginPure_of_adminNoMatch _ _ _ aOpt rfl hna]
    unfold loginTeachers
    simp only
    simp [hf]
  · intro aOpt tOpt entries k s u p st hna hnt hf
    refine ⟨?_, rfl, rfl, rfl, rfl, rfl, rfl, rfl, ?_⟩
    · unfold login
      rw [loginPure_of_adminNoMatch _ _ _ aOpt rfl hna,
        loginTeachers_of_noMatch _ _ _ tOpt rfl hnt]
      unfold loginStudents
      simp only
      simp [hf]
    · intro b hb
      rw [show Json.get (mkStudentSession k s) "passwordChanged" =
        some (.bool (s.passwordChanged.getD false)) from rfl, hb]
      rfl

theorem C4_session_contents_witness :
    adminNoMatch none "stu" "pw" ∧
    (([(("s1",
          { name := "S", username := "stu", password := "pw", classId := "C1",
            className := "Class 1", passwordChanged := some true }) :
          String × StudentRecord)]).find?
      (fun kv => kv.2.username == "stu" && kv.2.password == "pw") =
      some ("s1",
        { name := "S", username := "stu", password := "pw", classId := "C1",
          className := "Class 1", passwordChanged := some true })) ∧
    ((login
        { admin := .ok none, teachers := .ok none,
          students := .ok (some [("s1",
            { name := "S", username := "stu", password := "pw", classId := "C1",
              className := "Class 1", passwordChanged := some true })]) }
        "stu" "pw" { user := none, slot := none }).2.user =
      some (mkStudentSession "s1"
        { name := "S", username := "stu", password := "pw", classId := "C1",
          className := "Class 1", passwordChanged := some true })) :=
  ⟨fun a ha => by simp at ha, by decide,
   (C4_session_contents.2.2 none none _ "s1" _ "stu" "pw" { user := none, slot := none }
     (fun a ha => by simp at ha) (fun l hl => by simp at hl) (by decide)).1⟩

end SchoolApp

namespace SchoolApp

/-- C5: `login` is a total function into result values — failure is never an
uncaught exception but one of exactly two returned errors: every outcome is
success, `Invalid username or password`, or `Login failed. Please try
again.`; both failures leave the prior state (process-wide session and
durable slot) exactly as it was.  `Invalid username or password` is what
every no-match outcome returns — one message for unknown user and wrong
password alike — and any rejected read, at whichever probe it strikes,
returns `Login failed. Please try again.`. -/
theorem C5_login_failures :
    (∀ (store : Store) (u p : String) (st : AuthState),
      ((login store u p st).1.success = true ∧ (login store u p st).1.error = none) ∨
      ((login store u p st).1 =
          { success := false, error := some "Invalid username or password" } ∧
        (login store u p st).2 = st) ∨
      ((login store u p st).1 =
          { success := false, error := some "Login failed. Please try again." } ∧
        (login store u p st).2 = st)) ∧
    (∀ (aOpt : Option AdminRecord) (tOpt : Option (List (String × TeacherRecord)))
       (sOpt : Option (List (String × StudentRecord))) (u p : String) (st : AuthState),
      adminNoMatch aOpt u p → noTeacherMatch tOpt u p → noStudentMatch sOpt u p →
      login { admin := .ok aOpt, teachers := .ok tOpt, students := .ok sOpt } u p st =
        ({ success := false, error := some "Invalid username or password" }, st)) ∧
    (∀ (tE : Except Unit (Option (List (String × TeacherRecord))))
       (sE : Except Unit (Option (List (String × StudentRecord)))) (u p : String)
       (st : AuthState),
      login { admin := .error (), teachers := tE, students := sE } u p st =
        ({ success := false, error := some "Login failed. Please try again." }, st)) ∧
    (∀ (aOpt : Option AdminRecord)
       (sE : Except Unit (Option (List (String × StudentRecord)))) (u p : String)
       (st : AuthState),
      adminNoMatch aOpt u p →
      login { admin := .ok aOpt, teachers := .error (), students := sE } u p st =
        ({ success := false, error := some "Login failed. Please try again." }, st)) ∧
    (∀ (aOpt : Option AdminRecord) (tOpt : Option (List (String × TeacherRecord)))
       (u p : String) (st : AuthState),
      adminNoMatch aOpt u p → noTeacherMatch tOpt u p →
      login { admin := .ok aOpt, teachers := .ok tOpt, students := .error () } u p st =
        ({ success := false, error := some "Login failed. Please try again." }, st)) := by
  refine ⟨?_, ?_, ?_, ?_, ?_⟩
  · intro store u p st
    unfold login
    cases hlp : loginPure store u p with
    | error e => exact Or.inr (Or.inr ⟨rfl, rfl⟩)
    | ok oj =>
      cases oj with
      | none => exact Or.inr (Or.inl ⟨rfl, rfl⟩)
      | some j => exact Or.inl ⟨rfl, rfl⟩
  · intro aOpt tOpt sOpt u p st hna hnt hns
    unfold login
    rw [loginPure_of_adminNoMatch _ _ _ aOpt rfl hna,
      loginTeachers_of_noMatch _ _ _ tOpt rfl hnt,
      loginStudents_of_noMatch _ _ _ sOpt rfl hns]
  · intro tE sE u p st
    unfold login loginPure
    rfl
  · intro aOpt sE u p st hna
    unfold login
    rw [loginPure_of_adminNoMatch _ _ _ aOpt rfl hna]
    unfold loginTeachers
    rfl
  · intro aOpt tOpt u p st hna hnt
    unfold login
    rw [loginPure_of_adminNoMatch _ _ _ aOpt rfl hna,
      loginTeachers_of_noMatch _ _ _ tOpt rfl hnt]
    unfold loginStudents
    rfl

theorem C5_login_failures_witness :
    (((login { admin := .ok none, teachers := .ok none, students := .ok none }
        "u" "p" { user := some (Json.str "prior"), slot := some "prior-slot" }).1.success =
        true ∧
      (login { admin := .ok none, teachers := .ok none, students := .ok none }
        "u" "p" { user := some (Json.str "prior"), slot := some "prior-slot" }).1.error =
        none) ∨
     ((login { admin := .ok none, teachers := .ok none, students := .ok none }
        "u" "p" { user := some (Json.str "prior"), slot := some "prior-slot" }).1 =
        { success := false, error := some "Invalid username or password" } ∧
      (login { admin := .ok none, teachers := .ok none, students := .ok none }
        "u" "p" { user := some (Json.str "prior"), slot := some "prior-slot" }).2 =
        { user := some (Json.str "prior"), slot := some "prior-slot" }) ∨
     ((login { admin := .ok none, teachers := .ok none, students := .ok none }
        "u" "p" { user := some (Json.str "prior"), slot := some "prior-slot" }).1 =
        { success := false, error := some "Login failed. Please try again." } ∧
      (login { admin := .ok none, teachers := .ok none, students := .ok none }
        "u" "p" { user := some (Json.str "prior"), slot := some "prior-slot" }).2 =
        { user := some (Json.str "prior"), slot := some "prior-slot" })) ∧
    (adminNoMatch none "u" "p" ∧
     login { admin := .ok none, teachers := .error (), students := .ok none }
        "u" "p" { user := none, slot := none } =
        ({ success := false, error := some "Login failed. Please try again." },
         { user := none, slot := none })) :=
  ⟨C5_login_failures.1 _ "u" "p" _,
   fun a ha => by simp at ha,
   C5_login_failures.2.2.2.1 none _ "u" "p" _ (fun a ha => by simp at ha)⟩

end SchoolApp

namespace SchoolApp

/-- C8: after any successful login, the serialization written to the
durable slot, read back by `restoreSession` in a fresh process, reproduces
exactly the session `login` installed. -/
theorem C8_login_restore_roundtrip (store : Store) (u p : String) (st st2 : AuthState)
    (res : LoginResult) (hl : login store u p st = (res, st2))
    (hs : res.success = true) :
    ∃ j, st2.user = some j ∧ st2.slot = some (Json.stringify j) ∧
      restoreSession st2.slot = Except.ok (some j) := by
  unfold login at hl
  cases hlp : loginPure store u p with
  | error e =>
    rw [hlp] at hl
    cases hl
    simp at hs
  | ok oj =>
    cases oj with
    | none =>
      rw [hlp] at hl
      cases hl
      simp at hs
    | some j =>
      rw [hlp] at hl
      cases hl
      refine ⟨j, rfl, rfl, ?_⟩
      have hparse : Json.parse (Json.stringify j) = some j := by
        rcases loginPure_shape store u p j hlp with ⟨a, rfl⟩ | ⟨k, t, rfl⟩ | ⟨k, s, rfl⟩
        · exact parse_stringify_mkAdminSession a
        · exact parse_stringify_mkTeacherSession k t
        · exact parse_stringify_mkStudentSession k s
      have hne : Json.stringify j ≠ "" := by
        rcases loginPure_shape store u p j hlp with ⟨a, rfl⟩ | ⟨k, t, rfl⟩ | ⟨k, s, rfl⟩
        · exact stringify_obj_ne_empty _
        · exact stringify_obj_ne_empty _
        · exact stringify_obj_ne_empty _
      simp [restoreSession, hne, hparse]

theorem C8_login_restore_roundtrip_witness :
    (login
      { admin := .ok (some { id := "a1", username := "root", password := "pw",
                             name := "Admin" }),
        teachers := .ok none, students := .ok none }
      "root" "pw" { user := none, slot := none }).1.success = true ∧
    (∃ j, (login
      { admin := .ok (some { id := "a1", username := "root", password := "pw",
                             name := "Admin" }),
        teachers := .ok none, students := .ok none }
      "root" "pw" { user := none, slot := none }).2.user = some j ∧
      (login
      { admin := .ok (some { id := "a1", username := "root", password := "pw",
                             name := "Admin" }),
        teachers := .ok none, students := .ok none }
      "root" "pw" { user := none, slot := none }).2.slot = some (Json.stringify j) ∧
      restoreSession (login
      { admin := .ok (some { id := "a1", username := "root", password := "pw",
                             name := "Admin" }),
        teachers := .ok none, students := .ok none }
      "root" "pw" { user := none, slot := none }).2.slot = Except.ok (some j)) :=
  ⟨by decide,
   C8_login_restore_roundtrip
     { admin := .ok (some { id := "a1", username := "root", password := "pw",
                            name := "Admin" }),
       teachers := .ok none, students := .ok none }
     "root" "pw" { user := none, slot := none }
     (login
       { admin := .ok (some { id := "a1", username := "root", password := "pw",
                              name := "Admin" }),
         teachers := .ok none, students := .ok none }
       "root" "pw" { user := none, slot := none }).2
     (login
       { admin := .ok (some { id := "a1", username := "root", password := "pw",
                              name := "Admin" }),
         teachers := .ok none, students := .ok none }
       "root" "pw" { user := none, slot := none }).1
     rfl (by decide)⟩

/-- C9: with an active session, `updateUser(partial)` installs the
field-wise merge — every supplied field overrides, every other field keeps
its previous value — and re-persists its serialization to the durable slot;
with no active session it changes neither the state nor the slot.  In
particular `updateUser {passwordChanged: true}` on a student session
changes only `passwordChanged`. -/
theorem C9_updateUser_merge (st : AuthState) (fs : List (String × Json)) (d : PartialUser) :
    (st.user = none → updateUser d st = st) ∧
    (st.user = some (.obj fs) →
      (updateUser d st).user = some (mergeUser (.obj fs) d) ∧
      (updateUser d st).slot = some (Json.stringify (mergeUser (.obj fs) d)) ∧
      Json.get (mergeUser (.obj fs) d) "id" =
        (match d.id with | some x => some (.str x) | none => Json.get (.obj fs) "id") ∧
      Json.get (mergeUser (.obj fs) d) "username" =
        (match d.username with
          | some x => some (.str x) | none => Json.get (.obj fs) "username") ∧
      Json.get (mergeUser (.obj fs) d) "name" =
        (match d.name with | some x => some (.str x) | none => Json.get (.obj fs) "name") ∧
      Json.get (mergeUser (.obj fs) d) "role" =
        (match d.role with
          | some r => some (.str r.toStr) | none => Json.get (.obj fs) "role") ∧
      Json.get (mergeUser (.obj fs) d) "classId" =
        (match d.classId with
          | some x => some (.str x) | none => Json.get (.obj fs) "classId") ∧
      Json.get (mergeUser (.obj fs) d) "className" =
        (match d.className with
          | some x => some (.str x) | none => Json.get (.obj fs) "className") ∧
      Json.get (mergeUser (.obj fs) d) "passwordChanged" =
        (match d.passwordChanged with
          | some b => some (.bool b) | none => Json.get (.obj fs) "passwordChanged") ∧
      (∀ k, k ≠ "id" → k ≠ "username" → k ≠ "name" → k ≠ "role" → k ≠ "classId" →
        k ≠ "className" → k ≠ "passwordChanged" →
        Json.get (mergeUser (.obj fs) d) k = Json.get (.obj fs) k)) := by
  constructor
  · intro h
    unfold updateUser
    rw [h]
  · intro h
    refine ⟨?_, ?_, ?_, ?_, ?_, ?_, ?_, ?_, ?_, ?_⟩
    · unfold updateUser; rw [h]
    · unfold updateUser; rw [h]
    · show lookupLast _ "id" = _
      rw [lookupLast_applyField_ne _ "passwordChanged" "id" _ (by decide),
        lookupLast_applyField_ne _ "className" "id" _ (by decide),
        lookupLast_applyField_ne _ "classId" "id" _ (by decide),
        lookupLast_applyField_ne _ "role" "id" _ (by decide),
        lookupLast_applyField_ne _ "name" "id" _ (by decide),
        lookupLast_applyField_ne _ "username" "id" _ (by decide),
        lookupLast_applyField_eq]
      cases d.id <;> rfl
    · show lookupLast _ "username" = _
      rw [lookupLast_applyField_ne _ "passwordChanged" "username" _ (by decide),
        lookupLast_applyField_ne _ "className" "username" _ (by decide),
        lookupLast_applyField_ne _ "classId" "username" _ (by decide),
        lookupLast_applyField_ne _ "role" "username" _ (by decide),
        lookupLast_applyField_ne _ "name" "username" _ (by decide),
        lookupLast_applyField_eq,
        lookupLast_applyField_ne _ "id" "username" _ (by decide)]
      cases d.username <;> rfl
    · show lookupLast _ "name" = _
      rw [lookupLast_applyField_ne _ "passwordChanged" "name" _ (by decide),
        lookupLast_applyField_ne _ "className" "name" _ (by decide),
        lookupLast_applyField_ne _ "classId" "name" _ (by decide),
        lookupLast_applyField_ne _ "role" "name" _ (by decide),
        lookupLast_applyField_eq,
        lookupLast_applyField_ne _ "username" "name" _ (by decide),
        lookupLast_applyField_ne _ "id" "name" _ (by decide)]
      cases d.name <;> rfl
    · show lookupLast _ "role" = _
      rw [lookupLast_applyField_ne _ "passwordChanged" "role" _ (by decide),
        lookupLast_applyField_ne _ "className" "role" _ (by decide),
        lookupLast_applyField_ne _ "classId" "role" _ (by decide),
        lookupLast_applyField_eq,
        lookupLast_applyField_ne _ "name" "role" _ (by decide),
        lookupLast_applyField_ne _ "username" "role" _ (by decide),
        lookupLast_applyField_ne _ "id" "role" _ (by decide)]
      cases d.role <;> rfl
    · show lookupLast _ "classId" = _
      rw [lookupLast_applyField_ne _ "passwordChanged" "classId" _ (by decide),
        lookupLast_applyField_ne _ "className" "classId" _ (by decide),
        lookupLast_applyField_eq,
        lookupLast_applyField_ne _ "role" "classId" _ (by decide),
        lookupLast_applyField_ne _ "name" "classId" _ (by decide),
        lookupLast_applyField_ne _ "username" "classId" _ (by decide),
        lookupLast_applyField_ne _ "id" "classId" _ (by decide)]
      cases d.classId <;> rfl
    · show lookupLast _ "className" = _
      rw [lookupLast_applyField_ne _ "passwordChanged" "className" _ (by decide),
        lookupLast_applyField_eq,
        lookupLast_applyField_ne _ "classId" "className" _ (by decide),
        lookupLast_applyField_ne _ "role" "className" _ (by decide),
        lookupLast_applyField_ne _ "name" "className" _ (by decide),
        lookupLast_applyField_ne _ "username" "className" _ (by decide),
        lookupLast_applyField_ne _ "id" "className" _ (by decide)]
      cases d.className <;> rfl
    · show lookupLast _ "passwordChanged" = _
      rw [lookupLast_applyField_eq,
        lookupLast_applyField_ne _ "className" "passwordChanged" _ (by decide),
        lookupLast_applyField_ne _ "classId" "passwordChanged" _ (by decide),
        lookupLast_applyField_ne _ "role" "passwordChanged" _ (by decide),
        lookupLast_applyField_ne _ "name" "passwordChanged" _ (by decide),
        lookupLast_applyField_ne _ "username" "passwordChanged" _ (by decide),
        lookupLast_applyField_ne _ "id" "passwordChanged" _ (by decide)]
      cases d.passwordChanged <;> rfl
    · intro k h1 h2 h3 h4 h5 h6 h7
      show lookupLast _ k = _
      rw [lookupLast_applyField_ne _ "passwordChanged" k _ h7,
        lookupLast_applyField_ne _ "className" k _ h6,
        lookupLast_applyField_ne _ "classId" k _ h5,
        lookupLast_applyField_ne _ "role" k _ h4,
        lookupLast_applyField_ne _ "name" k _ h3,
        lookupLast_applyField_ne _ "username" k _ h2,
        lookupLast_applyField_ne _ "id" k _ h1]
      rfl

theorem C9_updateUser_merge_witness :
    ({ user := some (Json.obj [("x", Json.str "keep")]), slot := none } : AuthState).user =
      some (Json.obj [("x", Json.str "keep")]) ∧
    (updateUser { passwordChanged := some true }
        { user := some (Json.obj [("x", Json.str "keep")]), slot := none }).user =
      some (mergeUser (Json.obj [("x", Json.str "keep")]) { passwordChanged := some true }) ∧
    Json.get (mergeUser (Json.obj [("x", Json.str "keep")]) { passwordChanged := some true })
      "passwordChanged" = some (Json.bool true) ∧
    (updateUser { passwordChanged := some true } { user := none, slot := none } =
      { user := none, slot := none }) :=
  ⟨rfl,
   ((C9_updateUser_merge { user := some (Json.obj [("x", Json.str "keep")]), slot := none }
      [("x", Json.str "keep")] { passwordChanged := some true }).2 rfl).1,
   by
     have h := ((C9_updateUser_merge
       { user := some (Json.obj [("x", Json.str "keep")]), slot := none }
       [("x", Json.str "keep")] { passwordChanged := some true }).2 rfl).2.2.2.2.2.2.2.2.1
     simpa using h,
   (C9_updateUser_merge { user := none, slot := none } [] { passwordChanged := some true }).1
     rfl⟩

end SchoolApp

namespace SchoolApp

theorem any_map_str_beq (ids : List String) (x : String) :
    ((ids.map Json.str).any (fun j => Json.beq j (.str x))) = decide (x ∈ ids) := by
  induction ids with
  | nil => simp
  | cons a rest ih =>
    simp only [List.map_cons, List.any_cons, ih, Json.beq, List.mem_cons]
    by_cases h : a = x
    · subst h; simp
    · have h1 : (a == x) = false := by simpa using h
      have h2 : decide (x = a) = false := by
        simp only [decide_eq_false_iff_not]
        exact fun he => h he.symm
      rw [h1, Bool.decide_or, h2]

theorem assignedIncludes_of_arr (u : Json) (ids : List String) (x : String)
    (hass : u.get "assignedClassIds" = some (.arr (ids.map .str))) :
    assignedIncludes (some u) x = some (decide (x ∈ ids)) := by
  simp [assignedIncludes, hass, any_map_str_beq]

theorem assignedIncludes_of_absent (user : Option Json)
    (h : user = none ∨ ∃ u, user = some u ∧ u.get "assignedClassIds" = none) (x : String) :
    assignedIncludes user x = some false := by
  rcases h with rfl | ⟨u, rfl, hu⟩
  · rfl
  · simp [assignedIncludes, hu]

/-- C6: for a supervisor session whose `assignedClassIds` is a list of
class-id strings, the scope filter keeps exactly the classes whose id
(entry key) is in the list, exactly the students whose `classId` is in the
list, and exactly the announcements whose `classId` is unset (absent, or
the empty string — `!a.classId` treats both as "no class") or in the list;
membership is a pure id comparison — the student and announcement filters
never consult the classes snapshot, so ids with no backing class behave
identically. -/
theorem C6_supervisor_scope (u : Json) (ids : List String)
    (_hrole : u.get "role" = some (.str "supervisor"))
    (hass : u.get "assignedClassIds" = some (.arr (ids.map .str)))
    (dc : Option (List (String × ClassRec)))
    (ds : Option (List (String × StudentRecord)))
    (da : Option (List (String × AnnouncementRec))) :
    classesListener (some u) dc =
      some ((entriesOf dc).filter (fun kv => decide (kv.1 ∈ ids))) ∧
    studentsListener (some u) ds =
      some ((entriesOf ds).filter (fun kv => decide (kv.2.classId ∈ ids))) ∧
    announcementsListener (some u) da =
      some (sortAnnouncements ((entriesOf da).filter (fun kv =>
        match kv.2.classId with
        | none => true
        | some cid => cid == "" || decide (cid ∈ ids)))) := by
  refine ⟨?_, ?_, ?_⟩
  · exact jsFilter_eq_filter _ _ _
      (fun kv _ => assignedIncludes_of_arr u ids kv.1 hass)
  · exact jsFilter_eq_filter _ _ _
      (fun kv _ => assignedIncludes_of_arr u ids kv.2.classId hass)
  · unfold announcementsListener
    rw [jsFilter_eq_filter (fun kv => annVisible (some u) kv.2)
      (fun kv => match kv.2.classId with
        | none => true
        | some cid => cid == "" || decide (cid ∈ ids)) (entriesOf da) ?_]
    · rfl
    · intro kv _
      cases hc : kv.2.classId with
      | none => simp [annVisible, hc]
      | some cid =>
        by_cases he : cid = ""
        · simp [annVisible, hc, he]
        · simp [annVisible, hc, he, assignedIncludes_of_arr u ids cid hass]

theorem C6_supervisor_scope_witness :
    ((Json.obj [("role", Json.str "supervisor"),
        ("assignedClassIds", Json.arr [Json.str "C1"])]).get "role" =
      some (Json.str "supervisor")) ∧
    classesListener
      (some (Json.obj [("role", Json.str "supervisor"),
        ("assignedClassIds", Json.arr [Json.str "C1"])]))
      (some [("C1", { name := "Class 1", grade := "1", teacherId := "t1",
                      teacherName := "T" }),
             ("C2", { name := "Class 2", grade := "2", teacherId := "t2",
                      teacherName := "U" })]) =
      some ([("C1", { name := "Class 1", grade := "1", teacherId := "t1",
                      teacherName := "T" }),
             ("C2", { name := "Class 2", grade := "2", teacherId := "t2",
                      teacherName := "U" })].filter (fun kv => decide (kv.1 ∈ ["C1"]))) :=
  ⟨rfl,
   (C6_supervisor_scope
     (Json.obj [("role", Json.str "supervisor"),
       ("assignedClassIds", Json.arr [Json.str "C1"])])
     ["C1"] rfl rfl
     (some [("C1", { name := "Class 1", grade := "1", teacherId := "t1",
                     teacherName := "T" }),
            ("C2", { name := "Class 2", grade := "2", teacherId := "t2",
                     teacherName := "U" })])
     none none).1⟩

/-- C10: with a null session, or a session without `assignedClassIds`, the
optional chain `user?.assignedClassIds?.includes(x)` is `undefined` — falsy
— for every x, so the class and student lists are empty, the announcements
are exactly those whose `classId` is unset (absent or empty string), still
sorted by `createdAt` descending, and no filter throws. -/
theorem C10_absent_scope (user : Option Json)
    (h : user = none ∨ ∃ u, user = some u ∧ u.get "assignedClassIds" = none)
    (dc : Option (List (String × ClassRec)))
    (ds : Option (List (String × StudentRecord)))
    (da : Option (List (String × AnnouncementRec))) :
    classesListener user dc = some [] ∧
    studentsListener user ds = some [] ∧
    announcementsListener user da =
      some (sortAnnouncements ((entriesOf da).filter (fun kv =>
        match kv.2.classId with
        | none => true
        | some cid => cid == ""))) := by
  refine ⟨?_, ?_, ?_⟩
  · unfold classesListener
    rw [jsFilter_eq_filter _ (fun _ => false) _
      (fun kv _ => assignedIncludes_of_absent user h kv.1)]
    simp
  · unfold studentsListener
    rw [jsFilter_eq_filter _ (fun _ => false) _
      (fun kv _ => assignedIncludes_of_absent user h kv.2.classId)]
    simp
  · unfold announcementsListener
    rw [jsFilter_eq_filter (fun kv => annVisible user kv.2)
      (fun kv => match kv.2.classId with
        | none => true
        | some cid => cid == "") (entriesOf da) ?_]
    · rfl
    · intro kv _
      cases hc : kv.2.classId with
      | none => simp [annVisible, hc]
      | some cid =>
        by_cases he : cid = ""
        · simp [annVisible, hc, he]
        · simp [annVisible, hc, he, assignedIncludes_of_absent user h cid]

theorem C10_absent_scope_witness :
    classesListener none
      (some [("C1", { name := "Class 1", grade := "1", teacherId := "t1",
                      teacherName := "T" })]) = some [] ∧
    studentsListener none
      (some [("s1", { name := "S", username := "stu", password := "pw", classId := "C1",
                      className := "Class 1" })]) = some [] ∧
    announcementsListener none
      (some [("a1", { title := "Global", content := "g", priority := "normal",
                      createdAt := "2024-01-01", author := "x" }),
             ("a2", { title := "Scoped", content := "s", priority := "normal",
                      createdAt := "2024-01-02", author := "x",
                      classId := some "C1" })]) =
      some (sortAnnouncements
        (([("a1", { title := "Global", content := "g", priority := "normal",
                    createdAt := "2024-01-01", author := "x" }),
           ("a2", { title := "Scoped", content := "s", priority := "normal",
                    createdAt := "2024-01-02", author := "x",
                    classId := some "C1" })] :
            List (String × AnnouncementRec)).filter (fun kv =>
          match kv.2.classId with
          | none => true
          | some cid => cid == ""))) :=
  C10_absent_scope none (Or.inl rfl)
    (some [("C1", { name := "Class 1", grade := "1", teacherId := "t1",
                    teacherName := "T" })])
    (some [("s1", { name := "S", username := "stu", password := "pw", classId := "C1",
                    className := "Class 1" })])
    (some [("a1", { title := "Global", content := "g", priority := "normal",
                    createdAt := "2024-01-01", author := "x" }),
           ("a2", { title := "Scoped", content := "s", priority := "normal",
                    createdAt := "2024-01-02", author := "x",
                    classId := some "C1" })])

end SchoolApp

namespace SchoolApp

/-- C7: after filtering, announcements are sorted by `createdAt` descending
— the emitted list is a permutation of the filtered list, pairwise
non-increasing in time — and the sort is stable: any pair already in
comparator order in the filtered list (ties included) keeps its relative
order.  Classes and students are emitted as order-preserving sublists of
their snapshots.  On the spec's example — `createdAt` 2024-01-01,
2024-03-01, 2024-02-01 in that input order — the output order is 03-01,
02-01, 01-01. -/
theorem C7_announcement_order :
    (∀ (user : Option Json) (data : Option (List (String × AnnouncementRec)))
       (l f : List (String × AnnouncementRec)),
      jsFilter (fun kv => annVisible user kv.2) (entriesOf data) = some f →
      announcementsListener user data = some l →
      l = sortAnnouncements f ∧
      l.Perm f ∧
      l.Pairwise (fun a b => timeOf b.2.createdAt ≤ timeOf a.2.createdAt) ∧
      (∀ a b, [a, b].Sublist f → timeOf b.2.createdAt ≤ timeOf a.2.createdAt →
        [a, b].Sublist l)) ∧
    (∀ (user : Option Json) (dc : Option (List (String × ClassRec)))
       (r : List (String × ClassRec)),
      classesListener user dc = some r → r.Sublist (entriesOf dc)) ∧
    (∀ (user : Option Json) (ds : Option (List (String × StudentRecord)))
       (r : List (String × StudentRecord)),
      studentsListener user ds = some r → r.Sublist (entriesOf ds)) ∧
    announcementsListener none
      (some [("a1", { title := "first", content := "", priority := "normal",
                      createdAt := "2024-01-01", author := "x" }),
             ("a2", { title := "second", content := "", priority := "normal",
                      createdAt := "2024-03-01", author := "x" }),
             ("a3", { title := "third", content := "", priority := "normal",
                      createdAt := "2024-02-01", author := "x" })]) =
      some [("a2", { title := "second", content := "", priority := "normal",
                     createdAt := "2024-03-01", author := "x" }),
            ("a3", { title := "third", content := "", priority := "normal",
                     createdAt := "2024-02-01", author := "x" }),
            ("a1", { title := "first", content := "", priority := "normal",
                     createdAt := "2024-01-01", author := "x" })] := by
  refine ⟨?_, ?_, ?_, ?_⟩
  · intro user data l f hf hl
    unfold announcementsListener at hl
    rw [hf] at hl
    have hl2 : sortAnnouncements f = l := by simpa using hl
    subst hl2
    refine ⟨rfl, ?_, ?_, ?_⟩
    · exact List.perm_insertionSort annLE f
    · exact List.sorted_insertionSort annLE f
    · intro a b hab hle
      exact List.pair_sublist_insertionSort hle hab
  · intro user dc r h
    exact jsFilter_sublist _ _ _ h
  · intro user ds r h
    exact jsFilter_sublist _ _ _ h
  · decide

theorem C7_announcement_order_witness :
    (jsFilter (fun kv => annVisible none kv.2)
      (entriesOf (some [(("a1", { title := "first", content := "", priority := "normal", createdAt := "2024-01-01", author := "x" }) : String × AnnouncementRec)])) =
      some [("a1", { title := "first", content := "", priority := "normal", createdAt := "2024-01-01", author := "x" })]) ∧
    (sortAnnouncements [("a1", { title := "first", content := "", priority := "normal", createdAt := "2024-01-01", author := "x" })]).Perm [("a1", { title := "first", content := "", priority := "normal", createdAt := "2024-01-01", author := "x" })] :=
  ⟨rfl,
   ((C7_announcement_order.1 none
     (some [("a1", { title := "first", content := "", priority := "normal", createdAt := "2024-01-01", author := "x" })])
     (sortAnnouncements [("a1", { title := "first", content := "", priority := "normal", createdAt := "2024-01-01", author := "x" })])
     [("a1", { title := "first", content := "", priority := "normal", createdAt := "2024-01-01", author := "x" })]
     rfl rfl).2.1)⟩

end SchoolApp
